import Mathlib

/-!
Verification of `src/scripts/utils/downloader.py` (Miyokuu/YTDownloader).

The file shallowly embeds the two downloader classes (`PlaylistDownloader`,
`VideoDownloader`) and the helpers they call.  A pytube `Stream` is modelled
by the fields the code reads (resolution label, mime-type class, progressive
flag, audio bitrate label, byte size, container subtype, title); the external
stream catalogue of a video is an ordered list of such streams, and pytube's
`StreamQuery.filter(...).first()` becomes `List.filter` followed by
`List.head?`.  pytube's `filter` ignores an argument when the passed value is
falsy (`None`, `False`), which the embedding reproduces.  GUI calls are
modelled as an event trace (popups, widget updates, file transfers).
-/

namespace YTD

/-- One downloadable media variant as seen by the code: only the attributes the
repository reads are modelled. -/
structure Stream where
  resolution : Option String
  mediaType : String
  progressive : Bool
  abr : Option String
  filesize : Nat
  subtype : String
  title : String
deriving DecidableEq, Repr

/-- A quality tier descriptor, from `download_option.py` (fields as used by the
code: `RESOLUTION`, `TYPE`, `PROGRESSIVE`, `ABR`). -/
structure DownloadOption where
  RESOLUTION : Option String
  TYPE : String
  PROGRESSIVE : Bool
  ABR : Option String
deriving DecidableEq, Repr

/-- Source: `LD = DownloadOption("360p", "video", True, None)`. -/
def LD : DownloadOption := ⟨some "360p", "video", true, none⟩

/-- Source: `HD = DownloadOption("720p", "video", True, None)`. -/
def HD : DownloadOption := ⟨some "720p", "video", true, none⟩

/-- Source: `AUDIO = DownloadOption(None, "audio", False, "128kbps")`. -/
def AUDIO : DownloadOption := ⟨none, "audio", false, some "128kbps"⟩

/-- pytube's `StreamQuery.filter(resolution=..., type=..., progressive=...,
abr=...)`: each keyword adds a predicate only when the given value is truthy,
so `resolution=None`, `abr=None` and `progressive=False` add no predicate. -/
def streamMatches (o : DownloadOption) (s : Stream) : Bool :=
  (match o.RESOLUTION with
   | none => true
   | some r => s.resolution == some r) &&
  (s.mediaType == o.TYPE) &&
  (if o.PROGRESSIVE then s.progressive else true) &&
  (match o.ABR with
   | none => true
   | some a => s.abr == some a)

/-- A single video: its title and its external stream catalogue, in the order
pytube reports it. -/
structure Video where
  title : String
  streams : List Stream
deriving DecidableEq, Repr

/-- A playlist: title and the ordered videos. -/
structure Playlist where
  title : String
  videos : List Video
deriving DecidableEq, Repr

/-- pytube's `Playlist.length` counts the playlist's video urls, which is the
number of videos the `videos` generator yields. -/
def Playlist.length (p : Playlist) : Nat := p.videos.length

/-- Source: `video.streams.filter(...).first()`: the first stream of the catalogue that
passes the option's filters, or `None`. -/
def firstStream (o : DownloadOption) (v : Video) : Option Stream :=
  (v.streams.filter (streamMatches o)).head?

/-- The characters the spec forbids in file and directory names. -/
def forbiddenChars : List Char :=
  ['\\', '/', ':', '*', '?', '"', '<', '>', '|']

/-- Modelled from the spec: `YouTubeDownloader.remove_forbidden_characters`
lives in `downloader_base.py`, which is not included under `src/`; per the
spec it strips the characters `\ / : * ? " < > |` from a name. -/
def remove_forbidden_characters (name : String) : String :=
  ⟨name.data.filter (fun c => !forbiddenChars.contains c)⟩

/-- Modelled from the spec: `YouTubeDownloader.rename_dir` lives in
`downloader_base.py`, which is not included under `src/`; per the spec
(`dedupe_dir`) it returns `parent/name` when that path does not exist and
otherwise appends an incrementing ` (k)` suffix until the candidate collides
with nothing.  The existing filesystem entries are a finite list of paths and
the search carries fuel; `none` models the search not terminating. -/
def rename_dir_aux (existing : List String) (parent name : String) :
    Nat → Nat → Option String
  | 0, _ => none
  | fuel + 1, k =>
    let candidate :=
      if k = 0 then parent ++ "/" ++ name
      else parent ++ "/" ++ name ++ " (" ++ Nat.repr k ++ ")"
    if candidate ∈ existing then rename_dir_aux existing parent name fuel (k + 1)
    else some candidate

/-- Modelled from the spec: entry point of the directory deduper (see
`rename_dir_aux`); fuel one larger than the number of existing paths. -/
def rename_dir (existing : List String) (parent name : String) : Option String :=
  rename_dir_aux existing parent name (existing.length + 1) 0

/-- Modelled from the spec: `YouTubeDownloader.rename_file` lives in
`downloader_base.py`, which is not included under `src/`; like `rename_dir`
it disambiguates, but returns the file NAME whose path under `parent` is
free (the caller appends the extension). -/
def rename_file_aux (existing : List String) (parent name : String) :
    Nat → Nat → Option String
  | 0, _ => none
  | fuel + 1, k =>
    let candidate :=
      if k = 0 then name else name ++ " (" ++ Nat.repr k ++ ")"
    if (parent ++ "/" ++ candidate) ∈ existing then
      rename_file_aux existing parent name fuel (k + 1)
    else some candidate

/-- Modelled from the spec: entry point of the file-name deduper (see
`rename_file_aux`). -/
def rename_file (existing : List String) (parent name : String) : Option String :=
  rename_file_aux existing parent name (existing.length + 1) 0

/-- Round `num / den` to the nearest integer, ties to even — the integer-side
model of Python's `round` on a non-negative exact quotient. -/
def rheNat (num den : Nat) : Nat :=
  let q := num / den
  let r := num % den
  if 2 * r < den then q
  else if den < 2 * r then q + 1
  else if q % 2 = 0 then q else q + 1

/-- Python's `round(x)` over exact rationals: nearest integer, ties to even. -/
def rheQ (x : ℚ) : ℤ :=
  let f := ⌊x⌋
  if x - f < 1 / 2 then f
  else if (1 : ℚ) / 2 < x - f then f + 1
  else if f % 2 = 0 then f else f + 1

/-- Python's `round(x, 1)` over exact rationals: round to one decimal place,
ties to even (the spec's "rounded to one decimal place"). -/
def roundTo1 (x : ℚ) : ℚ := (rheQ (x * 10) : ℚ) / 10

/-- Source rendering `round(total/1048576, 1)` followed by ` MB`: the rounded value is in tenths of a MB
and Python prints such a float as `<integer part>.<tenths digit>`. -/
def formatSize (total : Nat) : String :=
  let k := rheNat (total * 10) 1048576
  Nat.repr (k / 10) ++ "." ++ Nat.repr (k % 10) ++ " MB"

/-- Source: `sum(video.filesize for video in ...)` over the stored per-item list: the
generator raises `AttributeError` (modelled `none`) at the first unresolved
(`None`) entry. -/
def sumFilesizes : List (Option Stream) → Option Nat
  | [] => some 0
  | none :: _ => none
  | some s :: rest => (sumFilesizes rest).map (s.filesize + ·)

/-- One observable GUI/filesystem action of the downloaders. -/
inductive Event where
  | transfer (path : String) (s : Stream)
  | progressUpdate (value : ℤ)
  | completedText (text : String)
  | resolutionUnavailablePopup
  | downloadDirPopup
  | downloadCompletePopup
deriving DecidableEq, Repr

namespace PlaylistDownloader

/-- Source: `PlaylistDownloader.get_playlist`: one `filter(...).first()` per playlist
item, collected in playlist order.  `first()` yields `None` when nothing
matches, so the list always has one (possibly `None`) entry per item. -/
def get_playlist (p : Playlist) (o : DownloadOption) : List (Option Stream) :=
  p.videos.map (firstStream o)

/-- The `select_dict` built in `PlaylistDownloader.__init__`: one optional
stream list per download option. -/
structure Select where
  hd : Option (List (Option Stream))
  ld : Option (List (Option Stream))
  audio : Option (List (Option Stream))
deriving DecidableEq, Repr

/-- Lines 37-44 of `downloader.py`: each tier's list is kept only when its
length equals `playlist.length`; note that the `AUDIO` entry stores `ld_list`
while testing `audio_list`'s length, exactly as the source does. -/
def mkSelect (p : Playlist) : Select :=
  let hd_list := get_playlist p HD
  let ld_list := get_playlist p LD
  let audio_list := get_playlist p AUDIO
  { hd := if hd_list.length = p.length then some hd_list else none
    ld := if ld_list.length = p.length then some ld_list else none
    audio := if audio_list.length = p.length then some ld_list else none }

/-- Lookup `self.select_dict[download_option]` for the three keys of the dict. -/
def Select.get (sel : Select) (o : DownloadOption) : Option (List (Option Stream)) :=
  if o = HD then sel.hd else if o = LD then sel.ld
  else if o = AUDIO then sel.audio else none

/-- Source: `PlaylistDownloader.get_playlist_size` (lines 151-155): `"Unavailable"`
when the stored entry is `None`, otherwise the formatted byte total of the
stored streams; `none` models the `AttributeError` raised when a stored entry
is an unresolved `None`. -/
def get_playlist_size (sel : Select) (o : DownloadOption) : Option String :=
  match sel.get o with
  | none => some "Unavailable"
  | some xs => (sumFilesizes xs).map formatSize

/-- The body of the download loop for one playlist item (lines 201-219):
re-filter the item's catalogue with the option's filters, transfer the first
match to `dir` under `<sanitized title>.mp4`, then push the counter to the
progress bar and the text `"<counter> of <total>"`; an item with no match
makes `first()` return `None` and the `.download` attribute access raise
(modelled by the `false` flag, ending the trace). -/
def downloadLoop (dir : String) (o : DownloadOption) (total : Nat) :
    List Video → Nat → List Event × Bool
  | [], _ => ([], true)
  | v :: rest, counter =>
    match firstStream o v with
    | none => ([], false)
    | some s =>
      let here :=
        [Event.transfer
            (dir ++ "/" ++ remove_forbidden_characters v.title ++ ".mp4") s,
         Event.progressUpdate ((counter : ℤ) + 1),
         Event.completedText (Nat.repr (counter + 1) ++ " of " ++ Nat.repr total)]
      let next := downloadLoop dir o total rest (counter + 1)
      (here ++ next.1, next.2)

/-- Source: `PlaylistDownloader.download` (lines 186-220): popup and return when the
selection entry is `None`; popup and return when the folder is falsy; else
dedupe the output directory and run the loop, finishing with the progress
reset and the completion popup.  The boolean is `false` when the run dies
with an uncaught exception. -/
def download (p : Playlist) (sel : Select) (folder : String)
    (existing : List String) (o : DownloadOption) : List Event × Bool :=
  if sel.get o = none then ([Event.resolutionUnavailablePopup], true)
  else if folder = "" then ([Event.downloadDirPopup], true)
  else
    match rename_dir existing folder (remove_forbidden_characters p.title) with
    | none => ([], false)
    | some dir =>
      let run := downloadLoop dir o p.length p.videos 0
      if run.2 then
        (run.1 ++ [Event.progressUpdate 0, Event.completedText "",
                   Event.downloadCompletePopup], true)
      else (run.1, false)

end PlaylistDownloader

namespace VideoDownloader

/-- Source: `VideoDownloader.get_video`: `self.video.streams.filter(...).first()`. -/
def get_video (v : Video) (o : DownloadOption) : Option Stream :=
  firstStream o v

/-- The `select_dict` built in `VideoDownloader.__init__`. -/
structure Select where
  hd : Option Stream
  ld : Option Stream
  audio : Option Stream
deriving DecidableEq, Repr

/-- Lines 249-253 of `downloader.py`. -/
def mkSelect (v : Video) : Select :=
  { hd := get_video v HD, ld := get_video v LD, audio := get_video v AUDIO }

/-- Lookup `self.select_dict[download_option]` for the three keys of the dict. -/
def Select.get (sel : Select) (o : DownloadOption) : Option Stream :=
  if o = HD then sel.hd else if o = LD then sel.ld
  else if o = AUDIO then sel.audio else none

/-- Source: `VideoDownloader.get_video_size` (lines 367-371): `"Unavailable"` when the
stored entry is `None`, otherwise the formatted byte size of the stored
stream. -/
def get_video_size (sel : Select) (o : DownloadOption) : String :=
  match sel.get o with
  | none => "Unavailable"
  | some s => formatSize s.filesize

/-- Source: `VideoDownloader.download` (lines 405-418): popup and return when the
selection entry is `None`; popup and return when the folder is falsy; else
transfer the STORED stream into `folder` under the deduped sanitized title
plus `.mp4`. -/
def download (v : Video) (sel : Select) (folder : String)
    (existing : List String) (o : DownloadOption) : List Event × Bool :=
  if sel.get o = none then ([Event.resolutionUnavailablePopup], true)
  else if folder = "" then ([Event.downloadDirPopup], true)
  else
    match sel.get o with
    | none => ([], false)
    | some s =>
      match rename_file existing folder (remove_forbidden_characters v.title) with
      | none => ([], false)
      | some base =>
        ([Event.transfer (folder ++ "/" ++ base ++ ".mp4") s], true)

/-- Source: `VideoDownloader.__progress_check` (lines 420-429): the two widget updates
fired with the percent `100 - round(bytes_remaining / stream.filesize * 100)`.
The division is exact rational arithmetic, the rounding ties-to-even. -/
def progress_check (s : Stream) (bytesRemaining : Nat) : List Event :=
  [Event.progressUpdate
      (100 - rheQ ((bytesRemaining : ℚ) / (s.filesize : ℚ) * 100)),
   Event.completedText
      (Int.repr (100 - rheQ ((bytesRemaining : ℚ) / (s.filesize : ℚ) * 100)) ++
        "% completed")]

end VideoDownloader

/-- The pairs `(path, stream)` of the file transfers occurring in a trace. -/
def transfersOf (evs : List Event) : List (String × Stream) :=
  evs.filterMap (fun e =>
    match e with
    | Event.transfer path s => some (path, s)
    | _ => none)

/-- The characters of a path after its last dot (its file extension). -/
def extensionOf (path : String) : String :=
  ⟨(path.data.reverse.takeWhile (fun c => c ≠ '.')).reverse⟩

/-- The regular expression of the spec, `^\d+(\.\d)? MB$`: one or more digits,
an optional dot-digit group, then a space and `MB`. -/
def SizeRegex (s : String) : Prop :=
  ∃ intPart fracPart : List Char,
    intPart ≠ [] ∧ (∀ c ∈ intPart, c.isDigit = true) ∧
    (fracPart = [] ∨ ∃ d : Char, d.isDigit = true ∧ fracPart = ['.', d]) ∧
    s.data = intPart ++ fracPart ++ [' ', 'M', 'B']

/-- The three events the playlist loop fires for the item at position `i`
(0-based) when it resolves: its transfer, the bar moving to `i+1`, and the
text `"<i+1> of <total>"`. -/
def itemEvents (dir : String) (o : DownloadOption) (total : Nat)
    (i : Nat) (v : Video) : List Event :=
  match firstStream o v with
  | none => []
  | some s =>
    [Event.transfer (dir ++ "/" ++ remove_forbidden_characters v.title ++ ".mp4") s,
     Event.progressUpdate ((i : ℤ) + 1),
     Event.completedText (Nat.repr (i + 1) ++ " of " ++ Nat.repr total)]

/-- Claim-side definition (C10), following the spec's words: the streams a
playlist download transfers are obtained by re-filtering each item's
catalogue with the option's own filters and taking the first match, item by
item in playlist order. -/
def specResolvedStreams (p : Playlist) (o : DownloadOption) : List Stream :=
  p.videos.filterMap (fun v => (v.streams.filter (streamMatches o)).head?)

section Lemmas

lemma remove_forbidden_data (x : String) :
    (remove_forbidden_characters x).data =
      x.data.filter (fun c => !forbiddenChars.contains c) := rfl

lemma mem_remove_forbidden {x : String} {c : Char}
    (h : c ∈ (remove_forbidden_characters x).data) : c ∉ forbiddenChars := by
  rw [remove_forbidden_data] at h
  rcases List.mem_filter.mp h with ⟨-, hc⟩
  simpa using hc

lemma rename_dir_aux_not_mem (existing : List String) (parent name : String) :
    ∀ (fuel k : Nat) (p : String),
      rename_dir_aux existing parent name fuel k = some p → p ∉ existing := by
  intro fuel
  induction fuel with
  | zero => intro k p h; simp [rename_dir_aux] at h
  | succ fuel ih =>
    intro k p h
    rw [rename_dir_aux] at h
    by_cases hmem : (if k = 0 then parent ++ "/" ++ name
        else parent ++ "/" ++ name ++ " (" ++ Nat.repr k ++ ")") ∈ existing
    · rw [if_pos hmem] at h
      exact ih (k + 1) p h
    · rw [if_neg hmem] at h
      cases h
      exact hmem

lemma digitChar_isDigit {n : Nat} (h : n < 10) : (Nat.digitChar n).isDigit = true := by
  interval_cases n <;> decide

lemma toDigitsCore_digits :
    ∀ (fuel n : Nat) (ds : List Char), (∀ c ∈ ds, c.isDigit = true) →
      ∀ c ∈ Nat.toDigitsCore 10 fuel n ds, c.isDigit = true := by
  intro fuel
  induction fuel with
  | zero =>
    intro n ds hds c hc
    rw [Nat.toDigitsCore] at hc
    exact hds c hc
  | succ fuel ih =>
    intro n ds hds c hc
    rw [Nat.toDigitsCore] at hc
    have hcons : ∀ c ∈ Nat.digitChar (n % 10) :: ds, c.isDigit = true := by
      intro c hc
      rcases List.mem_cons.mp hc with h | h
      · subst h
        exact digitChar_isDigit (Nat.mod_lt _ (by norm_num))
      · exact hds c h
    by_cases h0 : n / 10 = 0
    · rw [if_pos h0] at hc
      exact hcons c hc
    · rw [if_neg h0] at hc
      exact ih (n / 10) _ hcons c hc

lemma repr_data_digits (n : Nat) : ∀ c ∈ (Nat.repr n).data, c.isDigit = true := by
  intro c hc
  have hdata : (Nat.repr n).data = Nat.toDigitsCore 10 (n + 1) n [] := rfl
  rw [hdata] at hc
  exact toDigitsCore_digits (n + 1) n [] (by simp) c hc

lemma toDigitsCore_ne_nil :
    ∀ (fuel n : Nat) (ds : List Char), ds ≠ [] → Nat.toDigitsCore 10 fuel n ds ≠ [] := by
  intro fuel
  induction fuel with
  | zero =>
    intro n ds h
    rw [Nat.toDigitsCore]
    exact h
  | succ fuel ih =>
    intro n ds h
    rw [Nat.toDigitsCore]
    by_cases h0 : n / 10 = 0
    · rw [if_pos h0]
      simp
    · rw [if_neg h0]
      exact ih (n / 10) _ (by simp)

lemma repr_data_ne_nil (n : Nat) : (Nat.repr n).data ≠ [] := by
  have hdata : (Nat.repr n).data = Nat.toDigitsCore 10 (n + 1) n [] := rfl
  rw [hdata, Nat.toDigitsCore]
  by_cases h0 : n / 10 = 0
  · rw [if_pos h0]
    simp
  · rw [if_neg h0]
    exact toDigitsCore_ne_nil n (n / 10) _ (by simp)

lemma repr_mod10_data (k : Nat) :
    (Nat.repr (k % 10)).data = [Nat.digitChar (k % 10)] := by
  have h : k % 10 < 10 := Nat.mod_lt _ (by norm_num)
  set m := k % 10 with hm
  interval_cases m <;> rfl

lemma rheNat_eq_rheQ (num den : Nat) (hden : 0 < den) :
    (rheNat num den : ℤ) = rheQ ((num : ℚ) / (den : ℚ)) := by
  have hdQ : (0 : ℚ) < (den : ℚ) := by exact_mod_cast hden
  have hfloor : ⌊(num : ℚ) / (den : ℚ)⌋ = ((num / den : ℕ) : ℤ) := by
    rw [Rat.floor_natCast_div_natCast]
    exact (Int.ofNat_ediv num den).symm
  have hmod : (num : ℚ) = (den : ℚ) * ((num / den : ℕ) : ℚ) + ((num % den : ℕ) : ℚ) := by
    exact_mod_cast (Nat.div_add_mod num den).symm
  have hfrac : (num : ℚ) / (den : ℚ) - (⌊(num : ℚ) / (den : ℚ)⌋ : ℚ) =
      ((num % den : ℕ) : ℚ) / (den : ℚ) := by
    rw [hfloor, Int.cast_natCast]
    field_simp
    linear_combination hmod
  have hlt : (((num % den : ℕ) : ℚ) / (den : ℚ) < 1 / 2) ↔ (2 * (num % den) < den) := by
    rw [div_lt_div_iff hdQ (by norm_num : (0 : ℚ) < 2), one_mul]
    constructor
    · intro h
      have h' : (num % den) * 2 < den := by exact_mod_cast h
      omega
    · intro h
      have h' : (num % den) * 2 < den := by omega
      exact_mod_cast h'
  have hgt : ((1 : ℚ) / 2 < ((num % den : ℕ) : ℚ) / (den : ℚ)) ↔ (den < 2 * (num % den)) := by
    rw [div_lt_div_iff (by norm_num : (0 : ℚ) < 2) hdQ, one_mul]
    constructor
    · intro h
      have h' : den < (num % den) * 2 := by exact_mod_cast h
      omega
    · intro h
      have h' : den < (num % den) * 2 := by omega
      exact_mod_cast h'
  simp only [rheNat, rheQ]
  rw [hfrac, hfloor]
  rcases Nat.lt_trichotomy (2 * (num % den)) den with h | h | h
  · rw [if_pos h, if_pos (hlt.mpr h)]
  · have hnlt : ¬ (((num % den : ℕ) : ℚ) / (den : ℚ) < 1 / 2) := fun hc => by
      have := hlt.mp hc
      omega
    have hngt : ¬ ((1 : ℚ) / 2 < ((num % den : ℕ) : ℚ) / (den : ℚ)) := fun hc => by
      have := hgt.mp hc
      omega
    rw [if_neg (by omega : ¬ 2 * (num % den) < den),
        if_neg (by omega : ¬ den < 2 * (num % den)), if_neg hnlt, if_neg hngt]
    by_cases hq : (num / den) % 2 = 0
    · rw [if_pos hq, if_pos (by omega : ((num / den : ℕ) : ℤ) % 2 = 0)]
    · rw [if_neg hq, if_neg (by omega : ¬ ((num / den : ℕ) : ℤ) % 2 = 0)]
      push_cast
      ring
  · rw [if_neg (by omega : ¬ 2 * (num % den) < den), if_pos h,
        if_neg (lt_asymm (hgt.mpr h)), if_pos (hgt.mpr h)]
    push_cast
    ring

lemma formatSize_val (total : Nat) :
    ((rheNat (total * 10) 1048576 : ℕ) : ℚ) / 10 = roundTo1 ((total : ℚ) / 1048576) := by
  unfold roundTo1
  have h := rheNat_eq_rheQ (total * 10) 1048576 (by norm_num)
  have hx : ((total * 10 : ℕ) : ℚ) / ((1048576 : ℕ) : ℚ) = (total : ℚ) / 1048576 * 10 := by
    push_cast
    ring
  rw [hx] at h
  rw [← h]
  push_cast
  ring

lemma formatSize_regex (total : Nat) : SizeRegex (formatSize total) := by
  refine ⟨(Nat.repr (rheNat (total * 10) 1048576 / 10)).data,
    ['.', Nat.digitChar (rheNat (total * 10) 1048576 % 10)],
    repr_data_ne_nil _, repr_data_digits _,
    Or.inr ⟨_, digitChar_isDigit (Nat.mod_lt _ (by norm_num)), rfl⟩, ?_⟩
  show (formatSize total).data = _
  unfold formatSize
  simp only [String.data_append]
  rw [repr_mod10_data]
  simp

lemma sumFilesizes_all_some :
    ∀ (xs : List (Option Stream)), (∀ x ∈ xs, x.isSome = true) →
      sumFilesizes xs = some (((xs.filterMap id).map Stream.filesize).sum) := by
  intro xs
  induction xs with
  | nil => intro _; rfl
  | cons x rest ih =>
    intro h
    match x, h x (by simp) with
    | some s, _ =>
      have hrest := ih (fun y hy => h y (List.mem_cons_of_mem _ hy))
      simp [sumFilesizes, hrest, List.filterMap_cons]

end Lemmas

/-- C9: the filename sanitizer is idempotent, and its output never contains a
forbidden character (`\ / : * ? " < > |`).  The helper is modelled from the
spec because `downloader_base.py` is not part of `src/`. -/
theorem c9_sanitize_idempotent (x : String) :
    remove_forbidden_characters (remove_forbidden_characters x) =
      remove_forbidden_characters x ∧
    ∀ c ∈ (remove_forbidden_characters x).data, c ∉ forbiddenChars := by
  constructor
  · show (⟨((x.data.filter _).filter _ : List Char)⟩ : String) = ⟨x.data.filter _⟩
    rw [List.filter_filter]
    congr 1
    apply List.filter_congr
    intro c _
    simp
  · intro c hc
    exact mem_remove_forbidden hc

/-- C9 witness: sanitizing `a:/b` gives `ab`, sanitizing again changes
nothing, and its first character is not forbidden. -/
theorem c9_sanitize_idempotent_witness :
    remove_forbidden_characters (remove_forbidden_characters "a:/b") =
      remove_forbidden_characters "a:/b" ∧
    ('a' : Char) ∉ forbiddenChars := by
  refine ⟨(c9_sanitize_idempotent "a:/b").1, ?_⟩
  exact (c9_sanitize_idempotent "a:/b").2 'a' (by decide)

/-- C5: the directory deduper never answers with a path that exists at call
time, and when `parent/name` is free it answers exactly `parent/name`.  The
helper is modelled from the spec because `downloader_base.py` is not part of
`src/`. -/
theorem c5_rename_dir (existing : List String) (parent name : String) :
    (∀ p : String, rename_dir existing parent name = some p → p ∉ existing) ∧
    ((parent ++ "/" ++ name) ∉ existing →
      rename_dir existing parent name = some (parent ++ "/" ++ name)) := by
  constructor
  · intro p h
    exact rename_dir_aux_not_mem existing parent name _ 0 p h
  · intro hfree
    show rename_dir_aux existing parent name (existing.length + 1) 0 = _
    rw [rename_dir_aux]
    have h0 : (if 0 = 0 then parent ++ "/" ++ name
        else parent ++ "/" ++ name ++ " (" ++ Nat.repr 0 ++ ")") = parent ++ "/" ++ name :=
      if_pos rfl
    rw [h0, if_neg hfree]

/-- C5 witness: with `a/b` the only existing path, asking for `b` under `a`
yields the fresh path `a/b (1)`, and asking for `c` yields `a/c`. -/
theorem c5_rename_dir_witness :
    ("a/b (1)" : String) ∉ (["a/b"] : List String) ∧
    ("a/c" : String) ∉ (["a/b"] : List String) ∧
    rename_dir ["a/b"] "a" "c" = some "a/c" := by
  refine ⟨?_, ?_, ?_⟩
  · exact (c5_rename_dir ["a/b"] "a" "b").1 "a/b (1)" (by decide)
  · decide
  · exact (c5_rename_dir ["a/b"] "a" "c").2 (by decide)

/-- C1: the all-or-nothing availability claim fails on the code.  For the
one-video playlist whose catalogue is empty, no item resolves under `HD`,
yet the stored `HD` tier is non-empty: `first()` yields a `None` placeholder
that still counts toward the `len(hd_list) == playlist.length` check, so the
gate never fires and the tier is recorded as available. -/
theorem c1_gate_never_fires :
    ¬ ((((PlaylistDownloader.mkSelect ⟨"P", [⟨"v1", []⟩]⟩).get HD).isSome = true) ↔
        (∀ v ∈ (⟨"P", [⟨"v1", []⟩]⟩ : Playlist).videos,
          (firstStream HD v).isSome = true)) := by
  decide

/-- C2: the `AUDIO` entry of the playlist selection is populated from the
low-resolution list, not the audio list.  Witnessed by a one-video playlist
whose catalogue holds exactly one 128kbps audio stream: the audio tier is
recorded available (the audio list resolves everywhere), but the stored list
is the `LD` list `[None]`, not the audio list. -/
theorem c2_audio_entry_is_ld_list :
    (PlaylistDownloader.mkSelect
        ⟨"P", [⟨"v", [⟨none, "audio", false, some "128kbps", 1000, "webm", "t"⟩]⟩]⟩).audio =
      some (PlaylistDownloader.get_playlist
        ⟨"P", [⟨"v", [⟨none, "audio", false, some "128kbps", 1000, "webm", "t"⟩]⟩]⟩ LD) ∧
    PlaylistDownloader.get_playlist
        ⟨"P", [⟨"v", [⟨none, "audio", false, some "128kbps", 1000, "webm", "t"⟩]⟩]⟩ LD ≠
      PlaylistDownloader.get_playlist
        ⟨"P", [⟨"v", [⟨none, "audio", false, some "128kbps", 1000, "webm", "t"⟩]⟩]⟩ AUDIO := by
  decide

/-- C3: in both downloaders, `download` checks its two preconditions in order
before any transfer: an empty selection raises the resolution-unavailable
popup and produces no other event (in particular no file transfer), and a
non-empty selection with an unset folder raises the choose-a-directory popup
and produces no other event. -/
theorem c3_preconditions (p : Playlist) (psel : PlaylistDownloader.Select)
    (v : Video) (vsel : VideoDownloader.Select) (folder : String)
    (existing : List String) (o o' : DownloadOption) :
    (psel.get o = none →
      PlaylistDownloader.download p psel folder existing o =
        ([Event.resolutionUnavailablePopup], true)) ∧
    (psel.get o ≠ none → folder = "" →
      PlaylistDownloader.download p psel folder existing o =
        ([Event.downloadDirPopup], true)) ∧
    (vsel.get o' = none →
      VideoDownloader.download v vsel folder existing o' =
        ([Event.resolutionUnavailablePopup], true)) ∧
    (vsel.get o' ≠ none → folder = "" →
      VideoDownloader.download v vsel folder existing o' =
        ([Event.downloadDirPopup], true)) := by
  refine ⟨?_, ?_, ?_, ?_⟩
  · intro h
    simp [PlaylistDownloader.download, h]
  · intro h hf
    simp [PlaylistDownloader.download, h, hf]
  · intro h
    simp [VideoDownloader.download, h]
  · intro h hf
    simp [VideoDownloader.download, h, hf]

/-- C3 witness: a playlist with an empty `HD` tier gets the unavailability
popup; a video with a stored `HD` stream but folder `""` gets the
directory popup; files are never touched in either case. -/
theorem c3_preconditions_witness :
    PlaylistDownloader.download ⟨"P", []⟩ ⟨none, none, none⟩ "d" [] HD =
      ([Event.resolutionUnavailablePopup], true) ∧
    VideoDownloader.download ⟨"v", []⟩
        ⟨some ⟨some "720p", "video", true, none, 5, "mp4", "v"⟩, none, none⟩ "" [] HD =
      ([Event.downloadDirPopup], true) := by
  constructor
  · exact (c3_preconditions ⟨"P", []⟩ ⟨none, none, none⟩ ⟨"v", []⟩
      ⟨none, none, none⟩ "d" [] HD HD).1 (by decide)
  · exact (c3_preconditions ⟨"P", []⟩ ⟨none, none, none⟩ ⟨"v", []⟩
      ⟨some ⟨some "720p", "video", true, none, 5, "mp4", "v"⟩, none, none⟩ "" [] HD HD).2.2.2
      (by decide) rfl

/-- C4: both size displays return exactly `"Unavailable"` when the stored
selection for the option is `None`; otherwise they return the total byte
size divided by 1,048,576, rounded to one decimal place and rendered as a
string matching `^\d+(\.\d)? MB$` (for a playlist, provided every stored
entry actually resolved — an unresolved placeholder makes the Python sum
raise instead, see C1).  `roundTo1` is the spec's rounding, `formatSize` the
code's rendering, and the third conjunct of each branch identifies the
rendered tenths with the spec's rounded value. -/
theorem c4_size_display (vsel : VideoDownloader.Select)
    (psel : PlaylistDownloader.Select) (o : DownloadOption) :
    (vsel.get o = none → VideoDownloader.get_video_size vsel o = "Unavailable") ∧
    (∀ s, vsel.get o = some s →
      VideoDownloader.get_video_size vsel o = formatSize s.filesize ∧
      SizeRegex (VideoDownloader.get_video_size vsel o) ∧
      ((rheNat (s.filesize * 10) 1048576 : ℚ) / 10 =
        roundTo1 ((s.filesize : ℚ) / 1048576))) ∧
    (psel.get o = none →
      PlaylistDownloader.get_playlist_size psel o = some "Unavailable") ∧
    (∀ xs, psel.get o = some xs → (∀ x ∈ xs, x.isSome = true) →
      PlaylistDownloader.get_playlist_size psel o =
        some (formatSize (((xs.filterMap id).map Stream.filesize).sum)) ∧
      SizeRegex (formatSize (((xs.filterMap id).map Stream.filesize).sum)) ∧
      ((rheNat ((((xs.filterMap id).map Stream.filesize).sum) * 10) 1048576 : ℚ) / 10 =
        roundTo1 (((((xs.filterMap id).map Stream.filesize).sum) : ℚ) / 1048576))) := by
  refine ⟨?_, ?_, ?_, ?_⟩
  · intro h
    simp [VideoDownloader.get_video_size, h]
  · intro s hs
    refine ⟨by simp [VideoDownloader.get_video_size, hs], ?_, formatSize_val s.filesize⟩
    have hsize : VideoDownloader.get_video_size vsel o = formatSize s.filesize := by
      simp [VideoDownloader.get_video_size, hs]
    rw [hsize]
    exact formatSize_regex s.filesize
  · intro h
    simp [PlaylistDownloader.get_playlist_size, h]
  · intro xs hxs hall
    refine ⟨?_, formatSize_regex _, formatSize_val _⟩
    simp [PlaylistDownloader.get_playlist_size, hxs, sumFilesizes_all_some xs hall]

/-- C4 witness: a stored 1,048,576-byte stream displays as its formatted
size for the single video, and the one-item playlist variant agrees. -/
theorem c4_size_display_witness :
    VideoDownloader.get_video_size
        ⟨some ⟨some "720p", "video", true, none, 1048576, "mp4", "v"⟩, none, none⟩ HD =
      formatSize 1048576 ∧
    SizeRegex (VideoDownloader.get_video_size
        ⟨some ⟨some "720p", "video", true, none, 1048576, "mp4", "v"⟩, none, none⟩ HD) ∧
    PlaylistDownloader.get_playlist_size
        ⟨some [some ⟨some "720p", "video", true, none, 1048576, "mp4", "v"⟩], none, none⟩ HD =
      some (formatSize
        ((([some ⟨some "720p", "video", true, none, 1048576, "mp4", "v"⟩].filterMap
            id).map Stream.filesize).sum)) := by
  refine ⟨?_, ?_, ?_⟩
  · exact ((c4_size_display
      ⟨some ⟨some "720p", "video", true, none, 1048576, "mp4", "v"⟩, none, none⟩
      ⟨some [some ⟨some "720p", "video", true, none, 1048576, "mp4", "v"⟩], none, none⟩
      HD).2.1 ⟨some "720p", "video", true, none, 1048576, "mp4", "v"⟩ (by decide)).1
  · exact ((c4_size_display
      ⟨some ⟨some "720p", "video", true, none, 1048576, "mp4", "v"⟩, none, none⟩
      ⟨some [some ⟨some "720p", "video", true, none, 1048576, "mp4", "v"⟩], none, none⟩
      HD).2.1 ⟨some "720p", "video", true, none, 1048576, "mp4", "v"⟩ (by decide)).2.1
  · exact ((c4_size_display
      ⟨some ⟨some "720p", "video", true, none, 1048576, "mp4", "v"⟩, none, none⟩
      ⟨some [some ⟨some "720p", "video", true, none, 1048576, "mp4", "v"⟩], none, none⟩
      HD).2.2.2 [some ⟨some "720p", "video", true, none, 1048576, "mp4", "v"⟩]
      (by decide) (by decide)).1

section LoopLemmas

lemma downloadLoop_enum (dir : String) (o : DownloadOption) (total : Nat) :
    ∀ (vs : List Video) (c : Nat), (∀ v ∈ vs, (firstStream o v).isSome = true) →
      PlaylistDownloader.downloadLoop dir o total vs c =
        ((List.enumFrom c vs).flatMap (fun iv => itemEvents dir o total iv.1 iv.2),
          true) := by
  intro vs
  induction vs with
  | nil => intro c _; rfl
  | cons v rest ih =>
    intro c h
    rcases Option.isSome_iff_exists.mp (h v (by simp)) with ⟨s, hs⟩
    have hrest := ih (c + 1) (fun y hy => h y (List.mem_cons_of_mem _ hy))
    simp only [PlaylistDownloader.downloadLoop, hs, hrest, List.enumFrom,
      List.flatMap_cons, itemEvents]

lemma transfersOf_append (a b : List Event) :
    transfersOf (a ++ b) = transfersOf a ++ transfersOf b :=
  List.filterMap_append a b _

lemma transfersOf_itemEvents_flatMap (dir : String) (o : DownloadOption) (total : Nat) :
    ∀ (vs : List Video) (c : Nat),
      transfersOf ((List.enumFrom c vs).flatMap
          (fun iv => itemEvents dir o total iv.1 iv.2)) =
        vs.filterMap (fun v => (firstStream o v).map
          (fun s => (dir ++ "/" ++ remove_forbidden_characters v.title ++ ".mp4", s))) := by
  intro vs
  induction vs with
  | nil => intro c; rfl
  | cons v rest ih =>
    intro c
    simp only [List.enumFrom, List.flatMap_cons, transfersOf_append, ih (c + 1),
      List.filterMap_cons]
    cases hs : firstStream o v <;> simp [itemEvents, hs, transfersOf]

lemma download_success_eq (p : Playlist) (sel : PlaylistDownloader.Select)
    (folder dir : String) (existing : List String) (o : DownloadOption)
    (hsel : sel.get o ≠ none) (hfolder : folder ≠ "")
    (hdir : rename_dir existing folder (remove_forbidden_characters p.title) = some dir)
    (hres : ∀ v ∈ p.videos, (firstStream o v).isSome = true) :
    PlaylistDownloader.download p sel folder existing o =
      ((List.enumFrom 0 p.videos).flatMap
          (fun iv => itemEvents dir o p.length iv.1 iv.2) ++
        [Event.progressUpdate 0, Event.completedText "",
          Event.downloadCompletePopup], true) := by
  unfold PlaylistDownloader.download
  rw [if_neg hsel, if_neg hfolder, hdir]
  simp [downloadLoop_enum dir o p.length p.videos 0 hres]

lemma extensionOf_eq_mp4 {s : String} (l : List Char)
    (h : s.data = l ++ ['.', 'm', 'p', '4']) : extensionOf s = "mp4" := by
  unfold extensionOf
  rw [h, List.reverse_append]
  rfl

end LoopLemmas

/-- C6: an available playlist download walks the items strictly in playlist
order, one at a time; the item at position `i` (0-based) contributes, in
order, its transfer, the coarse bar moving to `i+1` (one unit per item, not
bytes), and the text `"<i+1> of <n>"`, so the texts read `1 of n` up to
`n of n`; the loop is followed by the reset and the completion popup. -/
theorem c6_playlist_progress (p : Playlist) (sel : PlaylistDownloader.Select)
    (folder dir : String) (existing : List String) (o : DownloadOption)
    (hsel : sel.get o ≠ none) (hfolder : folder ≠ "")
    (hdir : rename_dir existing folder (remove_forbidden_characters p.title) = some dir)
    (hres : ∀ v ∈ p.videos, (firstStream o v).isSome = true) :
    PlaylistDownloader.download p sel folder existing o =
      ((List.enumFrom 0 p.videos).flatMap
          (fun iv => itemEvents dir o p.length iv.1 iv.2) ++
        [Event.progressUpdate 0, Event.completedText "",
          Event.downloadCompletePopup], true) :=
  download_success_eq p sel folder dir existing o hsel hfolder hdir hres

/-- C6 witness: the spec's scenario — a playlist of three items, all
resolving under `LD`, downloads them in order with texts `1 of 3`, `2 of 3`,
`3 of 3` and the bar stepping 1, 2, 3. -/
theorem c6_playlist_progress_witness :
    PlaylistDownloader.download
        ⟨"MyList", [⟨"a", [⟨some "360p", "video", true, none, 10, "mp4", "a"⟩]⟩,
                    ⟨"b", [⟨some "360p", "video", true, none, 11, "mp4", "b"⟩]⟩,
                    ⟨"c", [⟨some "360p", "video", true, none, 12, "mp4", "c"⟩]⟩]⟩
        (PlaylistDownloader.mkSelect
          ⟨"MyList", [⟨"a", [⟨some "360p", "video", true, none, 10, "mp4", "a"⟩]⟩,
                      ⟨"b", [⟨some "360p", "video", true, none, 11, "mp4", "b"⟩]⟩,
                      ⟨"c", [⟨some "360p", "video", true, none, 12, "mp4", "c"⟩]⟩]⟩)
        "root" [] LD =
      ([Event.transfer "root/MyList/a.mp4" ⟨some "360p", "video", true, none, 10, "mp4", "a"⟩,
        Event.progressUpdate 1, Event.completedText "1 of 3",
        Event.transfer "root/MyList/b.mp4" ⟨some "360p", "video", true, none, 11, "mp4", "b"⟩,
        Event.progressUpdate 2, Event.completedText "2 of 3",
        Event.transfer "root/MyList/c.mp4" ⟨some "360p", "video", true, none, 12, "mp4", "c"⟩,
        Event.progressUpdate 3, Event.completedText "3 of 3",
        Event.progressUpdate 0, Event.completedText "",
        Event.downloadCompletePopup], true) := by
  rw [c6_playlist_progress
    ⟨"MyList", [⟨"a", [⟨some "360p", "video", true, none, 10, "mp4", "a"⟩]⟩,
                ⟨"b", [⟨some "360p", "video", true, none, 11, "mp4", "b"⟩]⟩,
                ⟨"c", [⟨some "360p", "video", true, none, 12, "mp4", "c"⟩]⟩]⟩
    (PlaylistDownloader.mkSelect
      ⟨"MyList", [⟨"a", [⟨some "360p", "video", true, none, 10, "mp4", "a"⟩]⟩,
                  ⟨"b", [⟨some "360p", "video", true, none, 11, "mp4", "b"⟩]⟩,
                  ⟨"c", [⟨some "360p", "video", true, none, 12, "mp4", "c"⟩]⟩]⟩)
    "root" "root/MyList" [] LD (by decide) (by decide) (by decide) (by decide)]
  decide

/-- C7: each firing of the progress callback on a single-video transfer
updates both widgets with the percent `100 − round(bytes_remaining /
total_size * 100)` (ties-to-even rounding of the exact quotient), and that
value agrees with the executable integer computation
`100 − rheNat (bytes_remaining * 100) filesize`. -/
theorem c7_progress_percent (s : Stream) (bytesRemaining : Nat)
    (h : 0 < s.filesize) :
    VideoDownloader.progress_check s bytesRemaining =
      [Event.progressUpdate
          (100 - rheQ ((bytesRemaining : ℚ) / (s.filesize : ℚ) * 100)),
       Event.completedText
          (Int.repr (100 - rheQ ((bytesRemaining : ℚ) / (s.filesize : ℚ) * 100)) ++
            "% completed")] ∧
    100 - rheQ ((bytesRemaining : ℚ) / (s.filesize : ℚ) * 100) =
      100 - (rheNat (bytesRemaining * 100) s.filesize : ℤ) := by
  refine ⟨rfl, ?_⟩
  congr 1
  rw [rheNat_eq_rheQ _ _ h]
  congr 1
  push_cast
  ring

/-- C7 witness: 512 of 2048 bytes remaining reports 75 percent on both
widgets. -/
theorem c7_progress_percent_witness :
    VideoDownloader.progress_check ⟨some "720p", "video", true, none, 2048, "mp4", "v"⟩ 512 =
      [Event.progressUpdate
          (100 - rheQ ((512 : ℚ) /
            ((⟨some "720p", "video", true, none, 2048, "mp4", "v"⟩ : Stream).filesize : ℚ) * 100)),
       Event.completedText
          (Int.repr (100 - rheQ ((512 : ℚ) /
            ((⟨some "720p", "video", true, none, 2048, "mp4", "v"⟩ : Stream).filesize : ℚ) * 100)) ++
            "% completed")] ∧
    100 - (rheNat (512 * 100) 2048 : ℤ) = 75 := by
  constructor
  · exact (c7_progress_percent
      ⟨some "720p", "video", true, none, 2048, "mp4", "v"⟩ 512 (by decide)).1
  · decide

/-- C8 counterexample: the claim that the output extension matches the
resolved stream's container fails on the code, which hardcodes `.mp4`.  For
a video whose only stream is a 128kbps audio stream in a `webm` container,
the `AUDIO` download writes `<title>.mp4`, whose extension differs from the
container. -/
theorem c8_counterexample :
    VideoDownloader.download ⟨"song", [⟨none, "audio", false, some "128kbps", 999, "webm", "song"⟩]⟩
        (VideoDownloader.mkSelect
          ⟨"song", [⟨none, "audio", false, some "128kbps", 999, "webm", "song"⟩]⟩)
        "dl" [] AUDIO =
      ([Event.transfer "dl/song.mp4"
          ⟨none, "audio", false, some "128kbps", 999, "webm", "song"⟩], true) ∧
    (⟨none, "audio", false, some "128kbps", 999, "webm", "song"⟩ : Stream).subtype = "webm" ∧
    extensionOf "dl/song.mp4" ≠
      (⟨none, "audio", false, some "128kbps", 999, "webm", "song"⟩ : Stream).subtype := by
  decide

/-- C8 (amended): every output file name is the item's sanitized title
(disambiguated by `rename_file` for a single video), and the extension is
ALWAYS `.mp4` — fixed by the code's f-string, independent of the option and
of the resolved stream's container. -/
theorem c8_output_names (p : Playlist) (sel : PlaylistDownloader.Select)
    (v : Video) (vsel : VideoDownloader.Select) (folder folder2 dir base : String)
    (existing existing2 : List String) (o o2 : DownloadOption) (s : Stream) :
    (sel.get o ≠ none → folder ≠ "" →
      rename_dir existing folder (remove_forbidden_characters p.title) = some dir →
      (∀ w ∈ p.videos, (firstStream o w).isSome = true) →
      transfersOf (PlaylistDownloader.download p sel folder existing o).1 =
        p.videos.filterMap (fun w => (firstStream o w).map
          (fun st => (dir ++ "/" ++ remove_forbidden_characters w.title ++ ".mp4", st))) ∧
      ∀ e ∈ transfersOf (PlaylistDownloader.download p sel folder existing o).1,
        extensionOf e.1 = "mp4") ∧
    (vsel.get o2 = some s → folder2 ≠ "" →
      rename_file existing2 folder2 (remove_forbidden_characters v.title) = some base →
      VideoDownloader.download v vsel folder2 existing2 o2 =
        ([Event.transfer (folder2 ++ "/" ++ base ++ ".mp4") s], true) ∧
      extensionOf (folder2 ++ "/" ++ base ++ ".mp4") = "mp4") := by
  constructor
  · intro hsel hfolder hdir hres
    have hdl := download_success_eq p sel folder dir existing o hsel hfolder hdir hres
    have htr : transfersOf (PlaylistDownloader.download p sel folder existing o).1 =
        p.videos.filterMap (fun w => (firstStream o w).map
          (fun st => (dir ++ "/" ++ remove_forbidden_characters w.title ++ ".mp4", st))) := by
      rw [hdl, transfersOf_append, transfersOf_itemEvents_flatMap dir o p.length p.videos 0]
      simp [transfersOf]
    refine ⟨htr, ?_⟩
    intro e he
    rw [htr] at he
    rcases List.mem_filterMap.mp he with ⟨w, -, hw⟩
    cases hs : firstStream o w with
    | none => rw [hs] at hw; cases hw
    | some st =>
      rw [hs] at hw
      cases hw
      exact extensionOf_eq_mp4
        (dir.data ++ '/' :: (remove_forbidden_characters w.title).data)
        (by simp [String.data_append])
  · intro hsel hfolder hbase
    constructor
    · unfold VideoDownloader.download
      rw [if_neg (by simp [hsel]), if_neg hfolder, hsel, hbase]
    · exact extensionOf_eq_mp4 (folder2.data ++ '/' :: base.data)
        (by simp [String.data_append])

/-- C8 witness: a playlist item titled `a:b` (sanitized to `ab`) with a
`webm`-container 360p stream is written as `ab.mp4`, and a single video with
a stored `HD` stream is written under its deduped sanitized title plus
`.mp4`. -/
theorem c8_output_names_witness :
    transfersOf (PlaylistDownloader.download
        ⟨"P", [⟨"a:b", [⟨some "360p", "video", true, none, 7, "webm", "a:b"⟩]⟩]⟩
        ⟨none, some [some ⟨some "360p", "video", true, none, 7, "webm", "a:b"⟩], none⟩
        "f" [] LD).1 =
      [("f/P/ab.mp4", ⟨some "360p", "video", true, none, 7, "webm", "a:b"⟩)] ∧
    VideoDownloader.download ⟨"v", [⟨some "720p", "video", true, none, 5, "mp4", "v"⟩]⟩
        ⟨some ⟨some "720p", "video", true, none, 5, "mp4", "v"⟩, none, none⟩
        "f" ["f/v"] HD =
      ([Event.transfer "f/v (1).mp4" ⟨some "720p", "video", true, none, 5, "mp4", "v"⟩],
        true) := by
  constructor
  · have h := (c8_output_names
      ⟨"P", [⟨"a:b", [⟨some "360p", "video", true, none, 7, "webm", "a:b"⟩]⟩]⟩
      ⟨none, some [some ⟨some "360p", "video", true, none, 7, "webm", "a:b"⟩], none⟩
      ⟨"v", []⟩ ⟨none, none, none⟩ "f" "f" "f/P" "b" [] [] LD HD
      ⟨some "360p", "video", true, none, 7, "webm", "a:b"⟩).1
      (by decide) (by decide) (by decide) (by decide)
    rw [h.1]
    decide
  · have h := (c8_output_names ⟨"P", []⟩ ⟨none, none, none⟩
      ⟨"v", [⟨some "720p", "video", true, none, 5, "mp4", "v"⟩]⟩
      ⟨some ⟨some "720p", "video", true, none, 5, "mp4", "v"⟩, none, none⟩
      "f" "f" "d" "v (1)" [] ["f/v"] LD HD
      ⟨some "720p", "video", true, none, 5, "mp4", "v"⟩).2
      (by decide) (by decide) (by decide)
    exact h.1

/-- C10: `PlaylistDownloader.download` consults the stored selection only as
an availability gate — any two non-`None` stored entries yield identical
behaviour — and the streams it actually transfers are obtained by
re-filtering each item's catalogue with the option's own filters at transfer
time and taking the first match (`specResolvedStreams`, written from the
spec's words). -/
theorem c10_transfer_re_resolution (p : Playlist)
    (sel sel2 : PlaylistDownloader.Select) (folder dir : String)
    (existing : List String) (o : DownloadOption) :
    (sel.get o ≠ none → sel2.get o ≠ none →
      PlaylistDownloader.download p sel folder existing o =
        PlaylistDownloader.download p sel2 folder existing o) ∧
    (sel.get o ≠ none → folder ≠ "" →
      rename_dir existing folder (remove_forbidden_characters p.title) = some dir →
      (∀ v ∈ p.videos, (firstStream o v).isSome = true) →
      (transfersOf (PlaylistDownloader.download p sel folder existing o).1).map
          Prod.snd =
        specResolvedStreams p o) := by
  constructor
  · intro h1 h2
    unfold PlaylistDownloader.download
    rw [if_neg h1, if_neg h2]
  · intro hsel hfolder hdir hres
    have hdl := download_success_eq p sel folder dir existing o hsel hfolder hdir hres
    rw [hdl]
    show (transfersOf (_ ++ _)).map Prod.snd = _
    rw [transfersOf_append, transfersOf_itemEvents_flatMap dir o p.length p.videos 0]
    have hnil : transfersOf [Event.progressUpdate 0, Event.completedText "",
        Event.downloadCompletePopup] = [] := rfl
    rw [hnil, List.append_nil, List.map_filterMap]
    have hpt : ∀ w : Video,
        ((firstStream o w).map (fun st =>
          (dir ++ "/" ++ remove_forbidden_characters w.title ++ ".mp4", st))).map
            Prod.snd = firstStream o w := by
      intro w
      cases firstStream o w <;> rfl
    simp only [hpt]
    rfl

/-- C10 witness: with two items resolving under `LD`, a stored entry `[]`
and a stored entry `[None, None]` behave identically, and the transferred
streams are the per-item first matches. -/
theorem c10_transfer_re_resolution_witness :
    PlaylistDownloader.download
        ⟨"P", [⟨"a", [⟨some "360p", "video", true, none, 1, "mp4", "a"⟩]⟩,
               ⟨"b", [⟨some "360p", "video", true, none, 2, "mp4", "b"⟩]⟩]⟩
        ⟨none, some [], none⟩ "f" [] LD =
      PlaylistDownloader.download
        ⟨"P", [⟨"a", [⟨some "360p", "video", true, none, 1, "mp4", "a"⟩]⟩,
               ⟨"b", [⟨some "360p", "video", true, none, 2, "mp4", "b"⟩]⟩]⟩
        ⟨none, some [none, none], none⟩ "f" [] LD ∧
    (transfersOf (PlaylistDownloader.download
        ⟨"P", [⟨"a", [⟨some "360p", "video", true, none, 1, "mp4", "a"⟩]⟩,
               ⟨"b", [⟨some "360p", "video", true, none, 2, "mp4", "b"⟩]⟩]⟩
        ⟨none, some [], none⟩ "f" [] LD).1).map Prod.snd =
      specResolvedStreams
        ⟨"P", [⟨"a", [⟨some "360p", "video", true, none, 1, "mp4", "a"⟩]⟩,
               ⟨"b", [⟨some "360p", "video", true, none, 2, "mp4", "b"⟩]⟩]⟩ LD := by
  constructor
  · exact (c10_transfer_re_resolution
      ⟨"P", [⟨"a", [⟨some "360p", "video", true, none, 1, "mp4", "a"⟩]⟩,
             ⟨"b", [⟨some "360p", "video", true, none, 2, "mp4", "b"⟩]⟩]⟩
      ⟨none, some [], none⟩ ⟨none, some [none, none], none⟩ "f" "f/P" [] LD).1
      (by decide) (by decide)
  · exact (c10_transfer_re_resolution
      ⟨"P", [⟨"a", [⟨some "360p", "video", true, none, 1, "mp4", "a"⟩]⟩,
             ⟨"b", [⟨some "360p", "video", true, none, 2, "mp4", "b"⟩]⟩]⟩
      ⟨none, some [], none⟩ ⟨none, some [none, none], none⟩ "f" "f/P" [] LD).2
      (by decide) (by decide) (by decide) (by decide)

end YTD
